import Mathlib

/-!
Verification of the survey-solving automation script (src/main.py).

The script is embedded shallowly, component by component:

* `RadioInput`, `Dom`, `optionLabel`, `extractLoopTr` model the option
  extraction loop (main.py lines 139-152).
* `Act`, `highlightLoopFrom`, `step5loop`, `step5`, `step6` model the
  enumeration loop (lines 154-158), the option matching loop (lines 189-202)
  and the Next-button block (lines 204-214) at the data level, as the list of
  observable actions they perform.
* `ChatMessage`, `buildPrompt`, `chatMessages`, `decisionClient` model the
  OpenAI call (lines 161-183).
* `Page`, `inject_overlay`, `update_overlay`, `remove_overlay` model the DOM
  effect of the injected overlay scripts (lines 38-78).
* `Env`, `BodyEv`, `Instr`, `bodyProgram`, `runBody`, `runScript` model the
  control flow of the whole process: which effectful driver/API calls are
  attempted in which order, what the try/except/finally at lines 110-226
  does with raised exceptions, and the resulting exit code.  An oracle
  (`Env.fails`) says which of the effectful calls inside the try body raise;
  dedicated flags cover the calls outside it (`webdriver.Chrome` at line 102
  and `maximize_window` at line 103, which run before the try block) and the
  calls in the handler and cleanup (`update_overlay` at line 222,
  `driver.quit` at line 226).
-/

namespace SurveyBot

/-- The truthiness test Python applies to `os.getenv` / `get_attribute`
results (`if not openai.api_key`, line 92; `if radio_id:`, line 143):
`None` and the empty string are falsy, any other string is truthy. -/
def strTruthy : Option String → Option String
  | none => none
  | some s => if s = "" then none else some s

/-- One control matched by `input[type='radio']` at line 139: its identity in
the DOM plus the value of `get_attribute("id")` (line 142), which is `None`
or a string. -/
structure RadioInput where
  elemId : Nat
  attrId : Option String
  deriving DecidableEq

/-- The live DOM as the extraction loop sees it: the matched radio controls
in DOM order, and the outcome of the `label[for=...]` lookup for a given id
(`none` models `find_element` raising at line 145). -/
structure Dom where
  radios : List RadioInput
  labelFor : String → Option String

/-- Label text recorded for one control (lines 141-151).  A truthy id leads
to a `label[for=...]` lookup whose text is stripped (line 146); a failed
lookup is caught and yields "(no label)" (lines 147-149); a falsy id yields
"(no id/label)" (lines 150-151) with no lookup at all. -/
def optionLabel (dom : Dom) (r : RadioInput) : String :=
  match strTruthy r.attrId with
  | some rid =>
    match dom.labelFor rid with
    | some t => t.trim
    | none => "(no label)"
  | none => "(no id/label)"

/-- The extraction loop (lines 141-152): builds `options_list` in DOM order
and also records, in order, the ids that were actually passed to a
`label[for=...]` lookup. -/
def extractLoopTr (dom : Dom) : List RadioInput → List (RadioInput × String) × List String
  | [] => ([], [])
  | r :: rest =>
    let res := extractLoopTr dom rest
    match strTruthy r.attrId with
    | some rid => ((r, optionLabel dom r) :: res.1, rid :: res.2)
    | none => ((r, optionLabel dom r) :: res.1, res.2)

/-- `options_list` as it stands after the loop at lines 141-152. -/
def extractOptions (dom : Dom) : List (RadioInput × String) :=
  (extractLoopTr dom dom.radios).1

/-- The ids for which a `label[for=...]` lookup was attempted, in order. -/
def labelLookups (dom : Dom) : List String :=
  (extractLoopTr dom dom.radios).2

/-- Observable actions of the enumeration loop, the matching loop and the
Next-button block (lines 154-158 and 189-214).  Log lines get dedicated
constructors; the source texts are noted where they carry an apostrophe:
`warnOptionNotFound` is the warning at line 201 and `warnNextNotFound` the
warning at line 213. -/
inductive Act where
  | reportOption (idx : Nat) (text : String)
  | highlight (r : RadioInput) (color : String)
  | screenshot (name : String)
  | click (r : RadioInput)
  | logClickedOption
  | warnOptionNotFound
  | overlay (msg : String)
  | findNextAttempt
  | highlightNext
  | clickNext
  | logClickedNext
  | warnNextNotFound
  deriving DecidableEq

/-- The enumeration loop at lines 154-158, with `enumerate(..., start=1)`:
per option an info log line with its 1-based index, a blue highlight of its
control and a screenshot. -/
def highlightLoopFrom (k : Nat) : List (RadioInput × String) → List Act
  | [] => []
  | (r, t) :: rest =>
    Act.reportOption k t :: Act.highlight r "blue" ::
      Act.screenshot ("option_" ++ toString k ++ "_highlighted") ::
      highlightLoopFrom (k + 1) rest

/-- Lines 154-158 applied to the whole `options_list`. -/
def highlightLoopActs (opts : List (RadioInput × String)) : List Act :=
  highlightLoopFrom 1 opts

/-- The matching loop (lines 190-198).  Besides the emitted actions and the
`found` flag it returns the entries whose text was actually compared before
the loop stopped (the scan stops with `break` at line 198). -/
def step5loop (chosen : String) :
    List (RadioInput × String) → List Act × Bool × List (RadioInput × String)
  | [] => ([], false, [])
  | (r, text) :: rest =>
    if text = chosen then
      ([Act.highlight r "green", Act.screenshot "chosen_option_highlighted",
        Act.click r, Act.logClickedOption], true, [(r, text)])
    else
      let res := step5loop chosen rest
      (res.1, res.2.1, (r, text) :: res.2.2)

/-- Step 5 (lines 189-202): the matching loop followed, when nothing matched,
by the warning at line 201 and the overlay update at line 202. -/
def step5 (opts : List (RadioInput × String)) (chosen : String) : List Act × Bool :=
  let res := step5loop chosen opts
  if res.2.1 then (res.1, true)
  else (res.1 ++ [Act.warnOptionNotFound, Act.overlay "Chosen option not found!"], false)

/-- Step 6 (lines 204-214): the Next-button block.  `nextPresent` says
whether the XPath lookup at line 206 finds the button; the lookup itself is
attempted first in either case, and a missing button is caught at lines
212-214. -/
def step6 (nextPresent : Bool) : List Act :=
  Act.findNextAttempt ::
    (if nextPresent then
      [Act.highlightNext, Act.screenshot "next_button_highlighted",
       Act.overlay "Clicking Next...", Act.clickNext, Act.logClickedNext]
    else [Act.warnNextNotFound, Act.overlay "Next button not found!"])

/-- Steps 5 and 6 in source order. -/
def afterChoice (opts : List (RadioInput × String)) (chosen : String)
    (nextPresent : Bool) : List Act :=
  (step5 opts chosen).1 ++ step6 nextPresent

/-- The option controls clicked (line 195) in a list of actions. -/
def clicks (acts : List Act) : List RadioInput :=
  acts.filterMap fun a => match a with | Act.click r => some r | _ => none

/-- The controls highlighted in a list of actions, in order. -/
def highlightedControls (acts : List Act) : List RadioInput :=
  acts.filterMap fun a => match a with | Act.highlight r _ => some r | _ => none

/-- The (index, text) pairs logged by the enumeration loop (line 155). -/
def reportedOptions (acts : List Act) : List (Nat × String) :=
  acts.filterMap fun a => match a with | Act.reportOption i t => some (i, t) | _ => none

/-- One chat message as sent at lines 178-181. -/
structure ChatMessage where
  role : String
  content : String
  deriving DecidableEq

/-- One completion choice; only the message content read at line 183 is
modelled. -/
structure ChatChoice where
  content : String
  deriving DecidableEq

/-- The completion response: its list of choices. -/
structure ChatResponse where
  choices : List ChatChoice
  deriving DecidableEq

/-- The f-string prompt of lines 161-172 with its three interpolations:
the rendered HTML, the question text and the comma-joined option labels. -/
def buildPrompt (renderedHtml questionText : String)
    (opts : List (RadioInput × String)) : String :=
  "\nYou are an AI with a custom personality designed to solve surveys.\nNote that you do not have access to the raw page source; you only see the live rendered HTML.\nBelow is the rendered HTML of the page (as seen in the Chrome Elements panel):\n"
    ++ renderedHtml
    ++ "\n\nAdditionally, here is the survey question and its available answer options:\nSurvey Question: "
    ++ questionText
    ++ "\nOptions: "
    ++ String.intercalate ", " (opts.map Prod.snd)
    ++ "\n\nRespond with the exact text of the option you would choose.\n"

/-- The two-message exchange of lines 178-181: the fixed system instruction
plus the user prompt. -/
def chatMessages (prompt : String) : List ChatMessage :=
  [⟨"system", "You are a survey-solving AI with a custom personality."⟩,
   ⟨"user", prompt⟩]

/-- `response['choices'][0]['message']['content'].strip()` (line 183); `none`
models the index error on an empty choice list, which would propagate. -/
def extractChosen (resp : ChatResponse) : Option String :=
  match resp.choices with
  | c :: _ => some c.content.trim
  | [] => none

/-- The decision client (lines 161-183): one blocking call to the chat
endpoint with model "gpt-3.5-turbo", returning the trimmed first choice
together with the list of (model, messages) requests performed. -/
def decisionClient (api : String → List ChatMessage → ChatResponse)
    (renderedHtml questionText : String) (opts : List (RadioInput × String)) :
    Option String × List (String × List ChatMessage) :=
  let msgs := chatMessages (buildPrompt renderedHtml questionText opts)
  let resp := api "gpt-3.5-turbo" msgs
  (extractChosen resp, [("gpt-3.5-turbo", msgs)])

/-- The overlay element; only its mutable content is modelled, the static
style attributes set once at creation (lines 44-56) are elided. -/
structure OverlayElem where
  innerHTML : String
  deriving DecidableEq

/-- The page as the overlay scripts see it: the element with id "ai-overlay"
when present, plus the remaining document content, which the scripts never
touch. -/
structure Page where
  overlay : Option OverlayElem
  rest : String
  deriving DecidableEq

/-- Whether interpolating `text` into the double-quoted JS string literal of
line 67 keeps the generated script well formed: the f-string embeds `text`
unescaped, so an unescaped double quote or backslash, or a line terminator,
breaks the literal and the script no longer parses. -/
def jsStringSafe (text : String) : Bool :=
  !(text.data.any fun c => c == '"' || c == '\\' || c == '\n' || c == '\r')

/-- The update script (lines 62-69).  The f-string at line 67 interpolates
`text` unescaped into a double-quoted JS string literal: if `text` breaks
the literal, `driver.execute_script` raises a parse error before any of the
script runs — in particular before the `if (overlay)` guard, so on every
page.  With a well-formed script the behaviour is `getElementById` followed
by a guarded write of `innerHTML`: both branches return normally. -/
def update_overlay (text : String) (p : Page) : Except String Page :=
  if jsStringSafe text then
    match p.overlay with
    | some o =>
      Except.ok { p with overlay := some { o with innerHTML :=
        "<div style=\x27background: rgba(0,0,0,0.7); padding: 10px; border-radius: 5px;\x27>"
          ++ text ++ "</div>" } }
    | none => Except.ok p
  else Except.error "JavascriptException"

/-- The removal script (lines 71-78): removes the overlay from its parent
only when it exists. -/
def remove_overlay (p : Page) : Except String Page :=
  match p.overlay with
  | some _ => Except.ok { p with overlay := none }
  | none => Except.ok p

/-- The injection script (lines 38-60): the creation script (a plain string,
no interpolation) creates the overlay only when absent (idempotent), then
line 60 delegates to `update_overlay`, inheriting its interpolation error
path for unsafe texts. -/
def inject_overlay (text : String) (p : Page) : Except String Page :=
  let p1 := match p.overlay with
    | some _ => p
    | none => { p with overlay := some ⟨""⟩ }
  update_overlay text p1

/-- The effectful driver/API calls performed inside the try body (lines
110-218), named after what they do.  Fixed `time.sleep` delays, `logging`
info/debug lines other than the warnings below, and the directory handling
inside `capture_screenshot` are elided: they cannot raise in a way the
script distinguishes.  `warnLabel` is the warning at line 148,
`warnChoiceNotFound` the one at line 201, `warnNext` the one at line 213. -/
inductive BodyEv where
  | navigate
  | screenshot (name : String)
  | overlayInject
  | overlayUpdate (msg : String)
  | scrollBy
  | getHtml
  | findQuestion
  | highlightElem (color : String)
  | findRadios
  | findLabel
  | warnLabel
  | openaiCall
  | clickOption
  | warnChoiceNotFound
  | findNext
  | clickNext
  | warnNext
  deriving DecidableEq

/-- Events of the whole process run.  Body events are wrapped in `body`;
`logError` is the missing-key error at line 93, `logException` the
`logging.exception` at line 221, `quitCall` the `driver.quit()` at line
226. -/
inductive RunEv where
  | logError
  | browserLaunch
  | maximize
  | body (e : BodyEv)
  | logException
  | quitCall
  deriving DecidableEq

/-- Failure oracle for one run.  `apiKey` is the value of
`os.getenv("OPENAI_API_KEY")` (line 91).  `fails n` says whether the n-th
effectful driver/API call inside the try body raises when attempted.
`launchFails` and `maximizeFails` cover `webdriver.Chrome` (line 102) and
`maximize_window` (line 103), which run before the try block;
`handlerOverlayFails` covers the `update_overlay` in the except block
(line 222) and `quitFails` the `driver.quit()` in the finally block
(line 226). -/
structure Env where
  apiKey : Option String
  launchFails : Bool
  maximizeFails : Bool
  fails : Nat → Bool
  handlerOverlayFails : Bool
  quitFails : Bool

/-- Execution state of the try body: how many effectful calls were attempted
so far, the trace of completed events, and whether an uncaught exception is
propagating. -/
structure BSt where
  tick : Nat
  trace : List RunEv
  raised : Bool
  deriving DecidableEq

/-- Attempt one effectful call whose failure is not locally caught: skipped
while an exception propagates; otherwise it consumes a tick and either
raises (aborting the rest of the body) or records its event. -/
def doOp (env : Env) (ev : BodyEv) (s : BSt) : BSt :=
  if s.raised then s
  else if env.fails s.tick then ⟨s.tick + 1, s.trace, true⟩
  else ⟨s.tick + 1, s.trace ++ [RunEv.body ev], false⟩

/-- One statement of the try body.  `op` is an effectful call whose failure
propagates to the top-level handler; `log` a logging call (cannot raise);
`caughtOp` an effectful call inside a local try whose handler only logs
(`onFail`), as in the label lookup at lines 144-149; `tryNext` the block at
lines 205-214: a run of effectful calls under one local handler that logs
(`onFailLog`, line 213) and then performs one more overlay update
(`onFailOp`, line 214) which is itself not caught. -/
inductive Instr where
  | op (ev : BodyEv)
  | log (ev : BodyEv)
  | caughtOp (ev : BodyEv) (onFail : BodyEv)
  | tryNext (ops : List BodyEv) (onFailLog : BodyEv) (onFailOp : BodyEv)

/-- Execute one instruction. -/
def execInstr (env : Env) (s : BSt) : Instr → BSt
  | Instr.op ev => doOp env ev s
  | Instr.log ev =>
    if s.raised then s else ⟨s.tick, s.trace ++ [RunEv.body ev], false⟩
  | Instr.caughtOp ev onFail =>
    if s.raised then s
    else if env.fails s.tick then ⟨s.tick + 1, s.trace ++ [RunEv.body onFail], false⟩
    else ⟨s.tick + 1, s.trace ++ [RunEv.body ev], false⟩
  | Instr.tryNext ops onFailLog onFailOp =>
    if s.raised then s
    else
      let s1 := ops.foldl (fun t e => doOp env e t) s
      if s1.raised then
        doOp env onFailOp ⟨s1.tick, s1.trace ++ [RunEv.body onFailLog], false⟩
      else s1

/-- Execute a list of instructions in order. -/
def execProg (env : Env) : List Instr → BSt → BSt
  | [], s => s
  | i :: rest, s => execProg env rest (execInstr env s i)

/-- The try body (lines 110-218) as a sequence of instructions, in source
order.  `nOpts` is the number of radio controls found at line 139 (each
contributes a highlight and a screenshot in the loop at lines 154-158),
`nLookups` the number of them with a truthy id (each contributes one locally
caught label lookup at lines 144-149), `matchFound` whether the matching
loop at lines 190-198 finds the chosen option (pure string comparisons,
cannot raise). -/
def bodyProgram (nOpts nLookups : Nat) (matchFound : Bool) : List Instr :=
  [Instr.op BodyEv.navigate,
   Instr.op (BodyEv.screenshot "page_loaded"),
   Instr.op BodyEv.overlayInject,
   Instr.op (BodyEv.overlayUpdate "Page Loaded"),
   Instr.op (BodyEv.overlayUpdate "Scrolling down to load content..."),
   Instr.op BodyEv.scrollBy,
   Instr.op (BodyEv.screenshot "after_scroll"),
   Instr.op BodyEv.getHtml,
   Instr.op (BodyEv.overlayUpdate "Rendered HTML extracted"),
   Instr.op (BodyEv.screenshot "rendered_html_retrieved"),
   Instr.op BodyEv.findQuestion,
   Instr.op (BodyEv.highlightElem "orange"),
   Instr.op (BodyEv.screenshot "question_highlighted"),
   Instr.op BodyEv.findRadios] ++
  List.replicate nLookups (Instr.caughtOp BodyEv.findLabel BodyEv.warnLabel) ++
  (List.replicate nOpts
    [Instr.op (BodyEv.highlightElem "blue"),
     Instr.op (BodyEv.screenshot "option_highlighted")]).flatten ++
  [Instr.op (BodyEv.overlayUpdate "Processing Survey Question..."),
   Instr.op BodyEv.openaiCall,
   Instr.op (BodyEv.overlayUpdate "AI Chose"),
   Instr.op (BodyEv.screenshot "ai_choice_received")] ++
  (if matchFound then
    [Instr.op (BodyEv.highlightElem "green"),
     Instr.op (BodyEv.screenshot "chosen_option_highlighted"),
     Instr.op BodyEv.clickOption]
   else
    [Instr.log BodyEv.warnChoiceNotFound,
     Instr.op (BodyEv.overlayUpdate "Chosen option not found!")]) ++
  [Instr.tryNext
     [BodyEv.findNext, BodyEv.highlightElem "purple",
      BodyEv.screenshot "next_button_highlighted",
      BodyEv.overlayUpdate "Clicking Next...", BodyEv.clickNext]
     BodyEv.warnNext (BodyEv.overlayUpdate "Next button not found!"),
   Instr.op (BodyEv.screenshot "final_state"),
   Instr.op (BodyEv.overlayUpdate "Process Completed")]

/-- Run the try body from the initial state. -/
def runBody (env : Env) (nOpts nLookups : Nat) (matchFound : Bool) : BSt :=
  execProg env (bodyProgram nOpts nLookups matchFound) ⟨0, [], false⟩

/-- The whole process (lines 90-226): the missing-key check exits 1 before
any browser work (lines 92-94); driver creation and window maximize run
before the try block, so their failure ends the process with a traceback
(exit code 1) and no cleanup; the except block (lines 220-223) logs the
exception and updates the overlay — if that update raises, the new exception
stays pending past the finally block and the interpreter exits 1; the
finally block (lines 224-226) always invokes `driver.quit()`, and a raising
quit likewise ends the process with exit code 1. -/
def runScript (env : Env) (nOpts nLookups : Nat) (matchFound : Bool) :
    List RunEv × Nat :=
  if (strTruthy env.apiKey).isNone then ([RunEv.logError], 1)
  else if env.launchFails then ([], 1)
  else if env.maximizeFails then ([RunEv.browserLaunch], 1)
  else
    let b := runBody env nOpts nLookups matchFound
    let handlerEvs : List RunEv :=
      if b.raised then
        if env.handlerOverlayFails then [RunEv.logException]
        else [RunEv.logException, RunEv.body (BodyEv.overlayUpdate "An error occurred!")]
      else []
    let pending : Bool := b.raised && env.handlerOverlayFails
    (RunEv.browserLaunch :: RunEv.maximize :: (b.trace ++ handlerEvs ++ [RunEv.quitCall]),
     if env.quitFails || pending then 1 else 0)

/-! ### Lemmas about the extraction loop -/

theorem extractLoopTr_fst (dom : Dom) (l : List RadioInput) :
    (extractLoopTr dom l).1 = l.map fun r => (r, optionLabel dom r) := by
  induction l with
  | nil => rfl
  | cons r rest ih =>
    cases h : strTruthy r.attrId <;> simp [extractLoopTr, h, ih]

theorem extractLoopTr_snd (dom : Dom) (l : List RadioInput) :
    (extractLoopTr dom l).2 = l.filterMap fun r => strTruthy r.attrId := by
  induction l with
  | nil => rfl
  | cons r rest ih =>
    cases h : strTruthy r.attrId <;> simp [extractLoopTr, h, ih, List.filterMap_cons]

theorem map_fst_pair {α β : Type} (f : α → β) (l : List α) :
    (l.map fun a => (a, f a)).map Prod.fst = l := by
  induction l with
  | nil => rfl
  | cons a l ih => simp [ih]

theorem extractOptions_map_fst (dom : Dom) :
    (extractOptions dom).map Prod.fst = dom.radios := by
  rw [extractOptions, extractLoopTr_fst]
  exact map_fst_pair _ _

theorem extractOptions_length (dom : Dom) :
    (extractOptions dom).length = dom.radios.length := by
  simp [extractOptions, extractLoopTr_fst]

/-! ### Lemmas about the enumeration and matching loops -/

theorem highlightedControls_from (k : Nat) (opts : List (RadioInput × String)) :
    highlightedControls (highlightLoopFrom k opts) = opts.map Prod.fst := by
  induction opts generalizing k with
  | nil => rfl
  | cons p rest ih =>
    obtain ⟨r, t⟩ := p
    have ih' := ih (k + 1)
    simp only [highlightedControls] at ih'
    simp [highlightLoopFrom, highlightedControls, List.filterMap_cons, ih']

theorem reportedOptions_from (k : Nat) (opts : List (RadioInput × String)) :
    reportedOptions (highlightLoopFrom k opts) =
      (List.range' k opts.length).zip (opts.map Prod.snd) := by
  induction opts generalizing k with
  | nil => rfl
  | cons p rest ih =>
    obtain ⟨r, t⟩ := p
    have ih' := ih (k + 1)
    simp only [reportedOptions] at ih'
    simp [highlightLoopFrom, reportedOptions, List.filterMap_cons, List.range'_succ, ih']

theorem step5loop_no_match (chosen : String) (opts : List (RadioInput × String))
    (h : ∀ p ∈ opts, p.2 ≠ chosen) : step5loop chosen opts = ([], false, opts) := by
  induction opts with
  | nil => rfl
  | cons q rest ih =>
    obtain ⟨r, t⟩ := q
    have ht : ¬(t = chosen) := h (r, t) (List.mem_cons_self _ _)
    simp [step5loop, ht, ih fun q hq => h q (List.mem_cons_of_mem _ hq)]

theorem step5loop_found (chosen : String) (opts : List (RadioInput × String))
    (p : RadioInput × String)
    (hp : opts.find? (fun q => decide (q.2 = chosen)) = some p) :
    (step5loop chosen opts).1 =
      [Act.highlight p.1 "green", Act.screenshot "chosen_option_highlighted",
       Act.click p.1, Act.logClickedOption] ∧
    (step5loop chosen opts).2.1 = true ∧
    (step5loop chosen opts).2.2 =
      opts.take (opts.findIdx (fun q => decide (q.2 = chosen)) + 1) := by
  induction opts generalizing p with
  | nil => simp at hp
  | cons q rest ih =>
    obtain ⟨r, t⟩ := q
    by_cases ht : t = chosen
    · have heq : List.find? (fun q : RadioInput × String => decide (q.2 = chosen))
          ((r, t) :: rest) = some (r, t) :=
        List.find?_cons_of_pos rest (by simp [ht])
      rw [heq] at hp
      obtain rfl : (r, t) = p := Option.some.inj hp
      refine ⟨?_, ?_, ?_⟩ <;> simp [step5loop, ht, List.findIdx_cons]
    · have heq : List.find? (fun q : RadioInput × String => decide (q.2 = chosen))
          ((r, t) :: rest) =
          List.find? (fun q : RadioInput × String => decide (q.2 = chosen)) rest :=
        List.find?_cons_of_neg rest (by simp [ht])
      rw [heq] at hp
      obtain ⟨h1, h2, h3⟩ := ih p hp
      refine ⟨?_, ?_, ?_⟩
      · simpa [step5loop, ht] using h1
      · simpa [step5loop, ht] using h2
      · simp [step5loop, ht, h3, List.findIdx_cons]

theorem step5loop_take (chosen : String) (opts : List (RadioInput × String)) :
    ∃ k, (step5loop chosen opts).2.2 = opts.take k := by
  induction opts with
  | nil => exact ⟨0, rfl⟩
  | cons q rest ih =>
    obtain ⟨r, t⟩ := q
    by_cases ht : t = chosen
    · exact ⟨1, by simp [step5loop, ht]⟩
    · obtain ⟨k, hk⟩ := ih
      exact ⟨k + 1, by simp [step5loop, ht, hk]⟩

/-! ### Claims about matching and clicking -/

/-- C1: when the model response equals the label text of at least one option,
step 5 clicks the control of the first matching option in list order and no
other control (with duplicate labels the first occurrence wins, since
`find?` returns the first match), and the loop stops scanning right after
that first match: the entries compared are exactly the prefix up to and
including it. -/
theorem c1_first_match (opts : List (RadioInput × String)) (chosen : String)
    (p : RadioInput × String)
    (hfind : opts.find? (fun q => decide (q.2 = chosen)) = some p) :
    clicks (step5 opts chosen).1 = [p.1] ∧
    (step5 opts chosen).2 = true ∧
    (step5loop chosen opts).2.2 =
      opts.take (opts.findIdx (fun q => decide (q.2 = chosen)) + 1) := by
  obtain ⟨h1, h2, h3⟩ := step5loop_found chosen opts p hfind
  refine ⟨?_, ?_, h3⟩
  · simp [step5, h2, h1, clicks]
  · simp [step5, h2]

/-- C1 witness: response "Green" against labels Red, Green, Green clicks only
the second control and scans only the first two entries. -/
theorem c1_witness :
    clicks (step5 [((⟨0, some "r0"⟩ : RadioInput), "Red"),
      ((⟨1, some "r1"⟩ : RadioInput), "Green"),
      ((⟨2, some "r2"⟩ : RadioInput), "Green")] "Green").1 = [⟨1, some "r1"⟩] ∧
    (step5loop "Green" [((⟨0, some "r0"⟩ : RadioInput), "Red"),
      ((⟨1, some "r1"⟩ : RadioInput), "Green"),
      ((⟨2, some "r2"⟩ : RadioInput), "Green")]).2.2 =
      [((⟨0, some "r0"⟩ : RadioInput), "Red"), ((⟨1, some "r1"⟩ : RadioInput), "Green")] := by
  have h := c1_first_match
    [((⟨0, some "r0"⟩ : RadioInput), "Red"), ((⟨1, some "r1"⟩ : RadioInput), "Green"),
     ((⟨2, some "r2"⟩ : RadioInput), "Green")] "Green" (⟨1, some "r1"⟩, "Green") (by decide)
  exact ⟨h.1, h.2.2.trans (by decide)⟩

/-- C2: when the model response matches no option label, no option control is
clicked, the warning of line 201 is logged, and the run still proceeds to
the Next-button block: the lookup for the Next control is attempted. -/
theorem c2_no_match (opts : List (RadioInput × String)) (chosen : String)
    (nextPresent : Bool) (h : ∀ p ∈ opts, p.2 ≠ chosen) :
    clicks (afterChoice opts chosen nextPresent) = [] ∧
    Act.warnOptionNotFound ∈ afterChoice opts chosen nextPresent ∧
    Act.findNextAttempt ∈ afterChoice opts chosen nextPresent := by
  have hloop := step5loop_no_match chosen opts h
  refine ⟨?_, ?_, ?_⟩ <;>
    cases nextPresent <;> simp [afterChoice, step5, step6, hloop, clicks]

/-- C2 witness: response "Blue" against the single label "Red". -/
theorem c2_witness :
    clicks (afterChoice [((⟨0, some "r0"⟩ : RadioInput), "Red")] "Blue" true) = [] ∧
    Act.warnOptionNotFound ∈ afterChoice [((⟨0, some "r0"⟩ : RadioInput), "Red")] "Blue" true ∧
    Act.findNextAttempt ∈ afterChoice [((⟨0, some "r0"⟩ : RadioInput), "Red")] "Blue" true :=
  c2_no_match [((⟨0, some "r0"⟩ : RadioInput), "Red")] "Blue" true (by decide)

/-! ### Claims about extraction -/

/-- C5: a control whose truthy id resolves to no label records the
placeholder "(no label)", a control without a truthy id records the
placeholder "(no id/label)", and in both cases the extraction still yields
an entry for this control and one for every other control instead of
aborting. -/
theorem c5_placeholder (dom : Dom) (r : RadioInput) (hr : r ∈ dom.radios)
    (hfail : ∀ rid, strTruthy r.attrId = some rid → dom.labelFor rid = none) :
    (r, optionLabel dom r) ∈ extractOptions dom ∧
    (∀ rid, strTruthy r.attrId = some rid → optionLabel dom r = "(no label)") ∧
    (strTruthy r.attrId = none → optionLabel dom r = "(no id/label)") ∧
    (extractOptions dom).length = dom.radios.length := by
  refine ⟨?_, ?_, ?_, extractOptions_length dom⟩
  · rw [show extractOptions dom = dom.radios.map (fun x => (x, optionLabel dom x)) from by
      simp [extractOptions, extractLoopTr_fst]]
    exact List.mem_map_of_mem _ hr
  · intro rid hrid
    simp only [optionLabel, hrid, hfail rid hrid]
  · intro hnone
    simp only [optionLabel, hnone]

/-- C5 witness: a control with id "q1" that resolves no label, next to a
control without id; the placeholder is recorded and the list keeps both. -/
theorem c5_witness :
    ((⟨0, some "q1"⟩ : RadioInput) ∈ ([⟨0, some "q1"⟩, ⟨1, none⟩] : List RadioInput)) ∧
    optionLabel ⟨[⟨0, some "q1"⟩, ⟨1, none⟩], fun _x => none⟩ ⟨0, some "q1"⟩ = "(no label)" ∧
    (extractOptions ⟨[⟨0, some "q1"⟩, ⟨1, none⟩], fun _x => none⟩).length = 2 := by
  have h := c5_placeholder ⟨[⟨0, some "q1"⟩, ⟨1, none⟩], fun _x => none⟩ ⟨0, some "q1"⟩
    (by decide) (fun _rid _h => rfl)
  exact ⟨by decide, h.2.1 "q1" rfl, h.2.2.2⟩

/-- C6: the extracted list preserves the DOM order of the matched controls,
and the same order drives the highlight loop, the 1-based indices of the
logged report, and the matching scan (which always visits a prefix of the
list in order). -/
theorem c6_dom_order (dom : Dom) (chosen : String) :
    (extractOptions dom).map Prod.fst = dom.radios ∧
    highlightedControls (highlightLoopActs (extractOptions dom)) = dom.radios ∧
    reportedOptions (highlightLoopActs (extractOptions dom)) =
      (List.range' 1 dom.radios.length).zip ((extractOptions dom).map Prod.snd) ∧
    ∃ k, (step5loop chosen (extractOptions dom)).2.2 = (extractOptions dom).take k := by
  refine ⟨extractOptions_map_fst dom, ?_, ?_, step5loop_take chosen (extractOptions dom)⟩
  · rw [highlightLoopActs, highlightedControls_from, extractOptions_map_fst]
  · rw [highlightLoopActs, reportedOptions_from, extractOptions_length]

/-- C9: the extractor distinguishes the two failure modes: a truthy id with
no matching label yields "(no label)", a missing/empty id yields
"(no id/label)", and label lookups are attempted exactly for the controls
with a truthy id (so none is attempted for a control without one). -/
theorem c9_two_placeholders (dom : Dom) (r : RadioInput) :
    (∀ rid, strTruthy r.attrId = some rid → dom.labelFor rid = none →
      optionLabel dom r = "(no label)") ∧
    (strTruthy r.attrId = none → optionLabel dom r = "(no id/label)") ∧
    labelLookups dom = dom.radios.filterMap fun q => strTruthy q.attrId := by
  refine ⟨?_, ?_, ?_⟩
  · intro rid h1 h2
    simp only [optionLabel, h1, h2]
  · intro h
    simp only [optionLabel, h]
  · simp [labelLookups, extractLoopTr_snd]

/-- C9 witness: three controls — id "a" with a label, no id, id "b" without
label; the distinct placeholders appear and only "a" and "b" are looked
up. -/
theorem c9_witness :
    optionLabel ⟨[⟨0, some "a"⟩, ⟨1, none⟩, ⟨2, some "b"⟩],
      fun x => if x = "a" then some " Yes " else none⟩ ⟨1, none⟩ = "(no id/label)" ∧
    optionLabel ⟨[⟨0, some "a"⟩, ⟨1, none⟩, ⟨2, some "b"⟩],
      fun x => if x = "a" then some " Yes " else none⟩ ⟨2, some "b"⟩ = "(no label)" ∧
    labelLookups ⟨[⟨0, some "a"⟩, ⟨1, none⟩, ⟨2, some "b"⟩],
      fun x => if x = "a" then some " Yes " else none⟩ = ["a", "b"] := by
  refine ⟨(c9_two_placeholders ⟨[⟨0, some "a"⟩, ⟨1, none⟩, ⟨2, some "b"⟩],
      fun x => if x = "a" then some " Yes " else none⟩ ⟨1, none⟩).2.1 rfl,
    (c9_two_placeholders ⟨[⟨0, some "a"⟩, ⟨1, none⟩, ⟨2, some "b"⟩],
      fun x => if x = "a" then some " Yes " else none⟩ ⟨2, some "b"⟩).1 "b" rfl (by decide),
    ((c9_two_placeholders ⟨[⟨0, some "a"⟩, ⟨1, none⟩, ⟨2, some "b"⟩],
      fun x => if x = "a" then some " Yes " else none⟩ ⟨0, some "a"⟩).2.2).trans (by decide)⟩

/-! ### Claim about the decision client -/

/-- C8: the decision client performs exactly one chat request, to the fixed
model, consisting of the fixed system instruction plus one user prompt that
embeds the rendered HTML, the question text and the comma-joined option
labels, and it returns the trimmed content of the first completion
choice. -/
theorem c8_decision_client (api : String → List ChatMessage → ChatResponse)
    (renderedHtml questionText : String) (opts : List (RadioInput × String)) :
    (decisionClient api renderedHtml questionText opts).2 =
      [("gpt-3.5-turbo",
        [ChatMessage.mk "system" "You are a survey-solving AI with a custom personality.",
         ChatMessage.mk "user" (buildPrompt renderedHtml questionText opts)])] ∧
    (∃ pre mid1 mid2 post : String,
      buildPrompt renderedHtml questionText opts =
        pre ++ renderedHtml ++ mid1 ++ questionText ++ mid2 ++
          String.intercalate ", " (opts.map Prod.snd) ++ post) ∧
    (decisionClient api renderedHtml questionText opts).1 =
      ((api "gpt-3.5-turbo" (chatMessages (buildPrompt renderedHtml questionText opts))).choices.head?).map
        (fun c => c.content.trim) := by
  refine ⟨rfl, ⟨"\nYou are an AI with a custom personality designed to solve surveys.\nNote that you do not have access to the raw page source; you only see the live rendered HTML.\nBelow is the rendered HTML of the page (as seen in the Chrome Elements panel):\n",
    "\n\nAdditionally, here is the survey question and its available answer options:\nSurvey Question: ",
    "\nOptions: ",
    "\n\nRespond with the exact text of the option you would choose.\n", rfl⟩, ?_⟩
  cases h : (api "gpt-3.5-turbo" (chatMessages (buildPrompt renderedHtml questionText opts))).choices with
  | nil => simp [decisionClient, extractChosen, h]
  | cons c cs => simp [decisionClient, extractChosen, h]

/-! ### Claim about the overlay scripts -/

/-- C10 counterexample: on a page without the overlay element, updating with
a text containing a double quote — as the AI-choice status built at line 185
from the model response can — still raises: the interpolated script of line
67 does not parse, refuting "does not raise" for the update operation. -/
theorem c10_counterexample :
    (⟨none, "content"⟩ : Page).overlay = none ∧
    update_overlay "AI Chose: \"Green\"" ⟨none, "content"⟩ =
      Except.error "JavascriptException" := by
  refine ⟨rfl, ?_⟩
  have hs : jsStringSafe "AI Chose: \"Green\"" = false := by decide
  simp [update_overlay, hs]

/-- C10 (amended): with the overlay element absent, the removal script always
leaves the page unchanged and returns normally, and the update script does
so whenever the interpolated text keeps the generated script well formed
(no double quote, backslash or line terminator); a text breaking the
literal makes the update call raise a parse error — before the guard, on
every page — even though the overlay is absent. -/
theorem c10_overlay_guard_amended (text : String) (p : Page) (h : p.overlay = none) :
    remove_overlay p = Except.ok p ∧
    (jsStringSafe text = true → update_overlay text p = Except.ok p) ∧
    (jsStringSafe text = false →
      ∀ q : Page, update_overlay text q = Except.error "JavascriptException") := by
  refine ⟨?_, ?_, ?_⟩
  · simp [remove_overlay, h]
  · intro hs
    simp [update_overlay, hs, h]
  · intro hs q
    simp [update_overlay, hs]

/-- C10 witness: a concrete overlay-free page and a benign status text. -/
theorem c10_amended_witness :
    remove_overlay ⟨none, "content"⟩ = Except.ok (⟨none, "content"⟩ : Page) ∧
    update_overlay "Page Loaded" ⟨none, "content"⟩ = Except.ok (⟨none, "content"⟩ : Page) := by
  have h := c10_overlay_guard_amended "Page Loaded" ⟨none, "content"⟩ rfl
  exact ⟨h.1, h.2.1 (by decide)⟩

/-! ### Lemmas about the control-flow model -/

theorem execProg_append (env : Env) (l1 l2 : List Instr) (s : BSt) :
    execProg env (l1 ++ l2) s = execProg env l2 (execProg env l1 s) := by
  induction l1 generalizing s with
  | nil => rfl
  | cons i rest ih => simp [execProg, ih]

theorem execInstr_raised (env : Env) (s : BSt) (i : Instr) (h : s.raised = true) :
    execInstr env s i = s := by
  cases i <;> simp [execInstr, doOp, h]

theorem execProg_raised (env : Env) (prog : List Instr) (s : BSt) (h : s.raised = true) :
    execProg env prog s = s := by
  induction prog with
  | nil => rfl
  | cons i rest ih => simp [execProg, execInstr_raised env s i h, ih]

theorem doOp_trace_body (env : Env) (ev : BodyEv) (s : BSt) :
    ∀ x ∈ (doOp env ev s).trace, x ∈ s.trace ∨ ∃ e, x = RunEv.body e := by
  intro x hx
  by_cases h1 : s.raised = true
  · simp [doOp, h1] at hx
    exact Or.inl hx
  · by_cases h2 : env.fails s.tick = true
    · simp [doOp, h1, h2] at hx
      exact Or.inl hx
    · simp [doOp, h1, h2] at hx
      rcases hx with hx | hx
      · exact Or.inl hx
      · exact Or.inr ⟨ev, hx⟩

theorem foldl_doOp_trace_body (env : Env) (ops : List BodyEv) :
    ∀ (s : BSt), ∀ x ∈ (ops.foldl (fun t e => doOp env e t) s).trace,
      x ∈ s.trace ∨ ∃ e, x = RunEv.body e := by
  induction ops with
  | nil => intro s x hx; exact Or.inl hx
  | cons e rest ih =>
    intro s x hx
    rw [List.foldl_cons] at hx
    rcases ih (doOp env e s) x hx with h | h
    · exact doOp_trace_body env e s x h
    · exact Or.inr h

theorem execInstr_trace_body (env : Env) (s : BSt) (i : Instr) :
    ∀ x ∈ (execInstr env s i).trace, x ∈ s.trace ∨ ∃ e, x = RunEv.body e := by
  intro x hx
  cases i with
  | op ev => exact doOp_trace_body env ev s x hx
  | log ev =>
    by_cases h1 : s.raised = true
    · simp [execInstr, h1] at hx
      exact Or.inl hx
    · simp [execInstr, h1] at hx
      rcases hx with hx | hx
      · exact Or.inl hx
      · exact Or.inr ⟨ev, hx⟩
  | caughtOp ev onFail =>
    by_cases h1 : s.raised = true
    · simp [execInstr, h1] at hx
      exact Or.inl hx
    · by_cases h2 : env.fails s.tick = true
      · simp [execInstr, h1, h2] at hx
        rcases hx with hx | hx
        · exact Or.inl hx
        · exact Or.inr ⟨onFail, hx⟩
      · simp [execInstr, h1, h2] at hx
        rcases hx with hx | hx
        · exact Or.inl hx
        · exact Or.inr ⟨ev, hx⟩
  | tryNext ops onFailLog onFailOp =>
    by_cases h1 : s.raised = true
    · simp [execInstr, h1] at hx
      exact Or.inl hx
    · simp only [execInstr, h1] at hx
      rw [if_neg (by simp [h1])] at hx
      by_cases h2 : (ops.foldl (fun t e => doOp env e t) s).raised = true
      · rw [if_pos h2] at hx
        rcases doOp_trace_body env onFailOp _ _ hx with h | h
        · rcases List.mem_append.mp h with h | h
          · exact foldl_doOp_trace_body env ops s x h
          · exact Or.inr ⟨onFailLog, by simpa using h⟩
        · exact Or.inr h
      · rw [if_neg h2] at hx
        exact foldl_doOp_trace_body env ops s x hx

theorem execProg_trace_body (env : Env) (prog : List Instr) :
    ∀ (s : BSt), ∀ x ∈ (execProg env prog s).trace,
      x ∈ s.trace ∨ ∃ e, x = RunEv.body e := by
  induction prog with
  | nil => intro s x hx; exact Or.inl hx
  | cons i rest ih =>
    intro s x hx
    rcases ih (execInstr env s i) x hx with h | h
    · exact execInstr_trace_body env s i x h
    · exact Or.inr h

theorem runBody_trace_body (env : Env) (n m : Nat) (mf : Bool) :
    ∀ x ∈ (runBody env n m mf).trace, ∃ e, x = RunEv.body e := by
  intro x hx
  rcases execProg_trace_body env (bodyProgram n m mf) ⟨0, [], false⟩ x hx with h | h
  · simp at h
  · exact h

theorem runBody_no_quit (env : Env) (n m : Nat) (mf : Bool) :
    RunEv.quitCall ∉ (runBody env n m mf).trace := by
  intro hmem
  obtain ⟨e, he⟩ := runBody_trace_body env n m mf RunEv.quitCall hmem
  exact RunEv.noConfusion he

theorem isNone_false_of_ne_none {o : Option String} (h : o ≠ none) : o.isNone = false := by
  cases hs : o with
  | none => exact absurd hs h
  | some v => rfl

theorem runScript_present (env : Env) (n m : Nat) (mf : Bool)
    (hkey : (strTruthy env.apiKey).isNone = false)
    (hl : env.launchFails = false) (hm : env.maximizeFails = false) :
    runScript env n m mf =
      (RunEv.browserLaunch :: RunEv.maximize ::
        ((runBody env n m mf).trace ++
         (if (runBody env n m mf).raised then
            if env.handlerOverlayFails then [RunEv.logException]
            else [RunEv.logException,
                  RunEv.body (BodyEv.overlayUpdate "An error occurred!")]
          else []) ++ [RunEv.quitCall]),
       if env.quitFails || ((runBody env n m mf).raised && env.handlerOverlayFails)
       then 1 else 0) := by
  simp [runScript, hkey, hl, hm]

theorem runScript_trace (env : Env) (n m : Nat) (mf : Bool)
    (hkey : (strTruthy env.apiKey).isNone = false)
    (hl : env.launchFails = false) (hm : env.maximizeFails = false) :
    (runScript env n m mf).1 =
      RunEv.browserLaunch :: RunEv.maximize ::
        ((runBody env n m mf).trace ++
         (if (runBody env n m mf).raised then
            if env.handlerOverlayFails then [RunEv.logException]
            else [RunEv.logException,
                  RunEv.body (BodyEv.overlayUpdate "An error occurred!")]
          else []) ++ [RunEv.quitCall]) := by
  rw [runScript_present env n m mf hkey hl hm]

theorem runScript_code (env : Env) (n m : Nat) (mf : Bool)
    (hkey : (strTruthy env.apiKey).isNone = false)
    (hl : env.launchFails = false) (hm : env.maximizeFails = false) :
    (runScript env n m mf).2 =
      if env.quitFails || ((runBody env n m mf).raised && env.handlerOverlayFails)
      then 1 else 0 := by
  rw [runScript_present env n m mf hkey hl hm]

theorem runBody_fail8 (env : Env) (n m : Nat) (mf : Bool)
    (hlt : ∀ t, t < 8 → env.fails t = false) (h8 : env.fails 8 = true) :
    runBody env n m mf =
      ⟨9, [RunEv.body BodyEv.navigate, RunEv.body (BodyEv.screenshot "page_loaded"),
           RunEv.body BodyEv.overlayInject, RunEv.body (BodyEv.overlayUpdate "Page Loaded"),
           RunEv.body (BodyEv.overlayUpdate "Scrolling down to load content..."),
           RunEv.body BodyEv.scrollBy, RunEv.body (BodyEv.screenshot "after_scroll"),
           RunEv.body BodyEv.getHtml], true⟩ := by
  have h0 := hlt 0 (by norm_num)
  have h1 := hlt 1 (by norm_num)
  have h2 := hlt 2 (by norm_num)
  have h3 := hlt 3 (by norm_num)
  have h4 := hlt 4 (by norm_num)
  have h5 := hlt 5 (by norm_num)
  have h6 := hlt 6 (by norm_num)
  have h7 := hlt 7 (by norm_num)
  rw [runBody, bodyProgram]
  simp only [execProg_append]
  have hhead : execProg env
      [Instr.op BodyEv.navigate,
       Instr.op (BodyEv.screenshot "page_loaded"),
       Instr.op BodyEv.overlayInject,
       Instr.op (BodyEv.overlayUpdate "Page Loaded"),
       Instr.op (BodyEv.overlayUpdate "Scrolling down to load content..."),
       Instr.op BodyEv.scrollBy,
       Instr.op (BodyEv.screenshot "after_scroll"),
       Instr.op BodyEv.getHtml,
       Instr.op (BodyEv.overlayUpdate "Rendered HTML extracted"),
       Instr.op (BodyEv.screenshot "rendered_html_retrieved"),
       Instr.op BodyEv.findQuestion,
       Instr.op (BodyEv.highlightElem "orange"),
       Instr.op (BodyEv.screenshot "question_highlighted"),
       Instr.op BodyEv.findRadios] ⟨0, [], false⟩ =
      ⟨9, [RunEv.body BodyEv.navigate, RunEv.body (BodyEv.screenshot "page_loaded"),
           RunEv.body BodyEv.overlayInject, RunEv.body (BodyEv.overlayUpdate "Page Loaded"),
           RunEv.body (BodyEv.overlayUpdate "Scrolling down to load content..."),
           RunEv.body BodyEv.scrollBy, RunEv.body (BodyEv.screenshot "after_scroll"),
           RunEv.body BodyEv.getHtml], true⟩ := by
    simp [execProg, execInstr, doOp, h0, h1, h2, h3, h4, h5, h6, h7, h8]
  rw [hhead]
  simp only [execProg_raised]

/-! ### Claims about exit codes, cleanup and overlay failures -/

/-- C3 counterexample: with the API key present but `webdriver.Chrome`
raising (line 102, before the try block), the process exits 1 although the
key is not absent, and cleanup never runs — refuting "exit code 1 exactly
when the key is absent; every other run reaches cleanup and exits 0". -/
theorem c3_counterexample :
    strTruthy (some "sk-test") ≠ none ∧
    (runScript ⟨some "sk-test", true, false, fun _t => false, false, false⟩ 0 0 false).2 = 1 ∧
    RunEv.quitCall ∉
      (runScript ⟨some "sk-test", true, false, fun _t => false, false, false⟩ 0 0 false).1 :=
  ⟨by decide, by decide, by decide⟩

/-- C3 (amended): a missing or empty API key exits 1 with no browser launch
and no navigation; with the key present and the pre-try driver setup
succeeding, the cleanup quit call is always reached and the exit code is 0
exactly when the final quit call succeeds and, in case the main workflow
raised, the error handler's overlay update also succeeds; a failing driver
creation (which runs before the try block) exits 1 without any cleanup. -/
theorem c3_exit_code (env : Env) (n m : Nat) (mf : Bool) :
    (strTruthy env.apiKey = none →
      runScript env n m mf = ([RunEv.logError], 1) ∧
      RunEv.browserLaunch ∉ (runScript env n m mf).1 ∧
      RunEv.body BodyEv.navigate ∉ (runScript env n m mf).1) ∧
    (strTruthy env.apiKey ≠ none → env.launchFails = false → env.maximizeFails = false →
      RunEv.quitCall ∈ (runScript env n m mf).1 ∧
      ((runScript env n m mf).2 = 0 ↔
        env.quitFails = false ∧
          ((runBody env n m mf).raised = true → env.handlerOverlayFails = false))) ∧
    (strTruthy env.apiKey ≠ none → env.launchFails = true →
      runScript env n m mf = ([], 1)) := by
  refine ⟨?_, ?_, ?_⟩
  · intro h
    have h' : (strTruthy env.apiKey).isNone = true := by simp [h]
    refine ⟨by simp [runScript, h'], ?_, ?_⟩ <;> simp [runScript, h']
  · intro h hl hm
    have h' : (strTruthy env.apiKey).isNone = false := isNone_false_of_ne_none h
    constructor
    · rw [runScript_trace env n m mf h' hl hm]
      simp
    · rw [runScript_code env n m mf h' hl hm]
      cases hq : env.quitFails <;> cases hr : (runBody env n m mf).raised <;>
        cases hh : env.handlerOverlayFails <;> simp
  · intro h hl
    have h' : (strTruthy env.apiKey).isNone = false := isNone_false_of_ne_none h
    simp [runScript, h', hl]

/-- C3 witness: a fully successful run with the key present reaches the
cleanup quit call. -/
theorem c3_witness :
    RunEv.quitCall ∈
      (runScript ⟨some "sk-test", false, false, fun _t => false, false, false⟩ 1 1 true).1 :=
  ((c3_exit_code ⟨some "sk-test", false, false, fun _t => false, false, false⟩ 1 1 true).2.1
    (by decide) rfl rfl).1

/-- C4: whenever the main workflow (the try body) raises — wherever it raised
— the run still reaches the finally block and `driver.quit()` is invoked
exactly once. -/
theorem c4_quit_once (env : Env) (n m : Nat) (mf : Bool)
    (hkey : strTruthy env.apiKey ≠ none)
    (hl : env.launchFails = false) (hm : env.maximizeFails = false)
    (hraised : (runBody env n m mf).raised = true) :
    ((runScript env n m mf).1).count RunEv.quitCall = 1 := by
  have hkey' : (strTruthy env.apiKey).isNone = false := isNone_false_of_ne_none hkey
  rw [runScript_trace env n m mf hkey' hl hm]
  have hq0 : ((runBody env n m mf).trace).count RunEv.quitCall = 0 :=
    List.count_eq_zero_of_not_mem (runBody_no_quit env n m mf)
  cases hh : env.handlerOverlayFails <;>
    simp [hraised, List.count_cons, List.count_append, List.count_nil, hq0, beq_iff_eq]

/-- C4 witness: an environment where the very first driver call of the body
(the navigation) raises; the quit call still happens exactly once. -/
theorem c4_witness :
    ((runScript ⟨some "sk-test", false, false, fun _t => true, false, false⟩ 1 1 true).1).count
      RunEv.quitCall = 1 :=
  c4_quit_once ⟨some "sk-test", false, false, fun _t => true, false, false⟩ 1 1 true
    (by decide) rfl rfl (by decide)

/-- C7 counterexample: in a run with no failures the eleventh trace entry
(the ninth driver call of the body) is the overlay update after HTML
retrieval and the question lookup does occur; failing exactly that call
makes the question lookup — and everything after it — never execute, so
execution does not continue past an overlay failure, refuting the claim. -/
theorem c7_counterexample :
    (runScript ⟨some "sk-test", false, false, fun _t => false, false, false⟩ 2 2 true).1[10]? =
      some (RunEv.body (BodyEv.overlayUpdate "Rendered HTML extracted")) ∧
    RunEv.body BodyEv.findQuestion ∈
      (runScript ⟨some "sk-test", false, false, fun _t => false, false, false⟩ 2 2 true).1 ∧
    RunEv.body BodyEv.findQuestion ∉
      (runScript ⟨some "sk-test", false, false, fun t => t == 8, false, false⟩ 2 2 true).1 ∧
    (runScript ⟨some "sk-test", false, false, fun t => t == 8, false, false⟩ 2 2 true).2 = 0 :=
  ⟨by decide, by decide, by decide, by decide⟩

/-- C7 (amended): an overlay failure never prevents cleanup — the quit call
still happens exactly once and the process survives — but, outside the
Next-button block, it aborts the remaining main-workflow steps: when the
overlay update after HTML retrieval (the ninth driver call of the body)
raises, the question lookup never executes.  Only the overlay update inside
the Next-button block is caught locally: failing exactly that call (the
28th body call in a one-option run) still lets the workflow continue to the
final-state screenshot and exit 0. -/
theorem c7_amended (env : Env) (n m : Nat) (mf : Bool)
    (hkey : strTruthy env.apiKey ≠ none)
    (hl : env.launchFails = false) (hm : env.maximizeFails = false)
    (hlt : ∀ t, t < 8 → env.fails t = false) (h8 : env.fails 8 = true) :
    RunEv.body BodyEv.findQuestion ∉ (runScript env n m mf).1 ∧
    ((runScript env n m mf).1).count RunEv.quitCall = 1 ∧
    RunEv.body (BodyEv.screenshot "final_state") ∈
      (runScript ⟨some "sk-test", false, false, fun t => t == 27, false, false⟩ 1 1 true).1 ∧
    (runScript ⟨some "sk-test", false, false, fun t => t == 27, false, false⟩ 1 1 true).2 = 0 := by
  have hkey' : (strTruthy env.apiKey).isNone = false := isNone_false_of_ne_none hkey
  have hb := runBody_fail8 env n m mf hlt h8
  refine ⟨?_, ?_, by decide, by decide⟩
  · rw [runScript_trace env n m mf hkey' hl hm, hb]
    cases hh : env.handlerOverlayFails <;> decide
  · rw [runScript_trace env n m mf hkey' hl hm, hb]
    cases hh : env.handlerOverlayFails <;> decide

/-- C7 witness: concrete environment failing exactly the ninth body call. -/
theorem c7_witness :
    RunEv.body BodyEv.findQuestion ∉
      (runScript ⟨some "sk-test", false, false, fun t => t == 8, false, false⟩ 3 3 false).1 ∧
    ((runScript ⟨some "sk-test", false, false, fun t => t == 8, false, false⟩ 3 3 false).1).count
      RunEv.quitCall = 1 := by
  have h := c7_amended ⟨some "sk-test", false, false, fun t => t == 8, false, false⟩ 3 3 false
    (by decide) rfl rfl (by decide) (by decide)
  exact ⟨h.1, h.2.1⟩

end SurveyBot
